import Mathlib

/-!
# ocaml-flac decoder stubs (`src/flac_stubs.c`)

A shallow embedding of the C stubs that adapt the callback-driven libFLAC stream
decoder to the pull-style OCaml API, and the properties proved about them.

Modelling conventions.

* The native engine (libFLAC) is external.  Whatever it does during one native
  call is a parameter: the list of adapter callbacks it invoked, its status code
  afterwards, and the contents of its sample memory when the call returns.
* Pointers are natural numbers.  Sample memory maps a pointer to the `FLAC__int32`
  array that starts there; reading outside that array is undefined (`none`).
* The platform is LP64, little-endian (a pointer is 8 bytes, an `int16_t` is
  stored low byte first).  Counts and sizes are unbounded naturals; the
  32-to-16-bit store of `read_pcm` and the integer-to-double conversion of `read`
  are modelled explicitly.
* Heap allocation inside the callbacks is taken to succeed (the source does not
  test it); the two allocations of `ocaml_flac_decoder_create` are parameters.
-/

namespace OcamlFlac

/-! ## State translator -/

/-- The eleven polymorphic variants cached by the stubs (`decl_var`). -/
inductive Variant where
  | Search_for_metadata
  | Read_metadata
  | Search_for_frame_sync
  | Read_frame
  | End_of_stream
  | Ogg_error
  | Seek_error
  | Aborted
  | Memory_allocation_error
  | Uninitialized
  | Unknown
  deriving DecidableEq, Repr

/-- The static `var_*` cells.  They hold OCaml values (hashed variant tags). -/
structure VariantTable where
  var_Search_for_metadata : Int
  var_Read_metadata : Int
  var_Search_for_frame_sync : Int
  var_Read_frame : Int
  var_End_of_stream : Int
  var_Ogg_error : Int
  var_Seek_error : Int
  var_Aborted : Int
  var_Memory_allocation_error : Int
  var_Uninitialized : Int
  var_Unknown : Int
  deriving DecidableEq, Repr

/-- The values of the `FLAC__STREAM_DECODER_*` enumerators.  They are declared in
libFLAC's `FLAC/stream_decoder.h`, which is not part of the sources, so they are a
parameter. -/
structure StateCodes where
  SEARCH_FOR_METADATA : Int
  READ_METADATA : Int
  SEARCH_FOR_FRAME_SYNC : Int
  READ_FRAME : Int
  END_OF_STREAM : Int
  OGG_ERROR : Int
  SEEK_ERROR : Int
  ABORTED : Int
  MEMORY_ALLOCATION_ERROR : Int
  UNINITIALIZED : Int
  deriving DecidableEq, Repr

/-- The ten case labels of the `switch` in `val_of_state`, in source order. -/
def StateCodes.labels (k : StateCodes) : List Int :=
  [k.SEARCH_FOR_METADATA, k.READ_METADATA, k.SEARCH_FOR_FRAME_SYNC, k.READ_FRAME,
   k.END_OF_STREAM, k.OGG_ERROR, k.SEEK_ERROR, k.ABORTED,
   k.MEMORY_ALLOCATION_ERROR, k.UNINITIALIZED]

/-- The enumerator values of libFLAC 1.x (`0 .. 9`, in declaration order). -/
def libflacCodes : StateCodes :=
  { SEARCH_FOR_METADATA := 0, READ_METADATA := 1, SEARCH_FOR_FRAME_SYNC := 2,
    READ_FRAME := 3, END_OF_STREAM := 4, OGG_ERROR := 5, SEEK_ERROR := 6,
    ABORTED := 7, MEMORY_ALLOCATION_ERROR := 8, UNINITIALIZED := 9 }

/-- `ocaml_flac_stubs_initialize`: every `import_var(x)` stores
`caml_hash_variant("x")` in `var_x`. -/
def ocaml_flac_stubs_initialize (caml_hash_variant : Variant → Int) : VariantTable :=
  { var_Search_for_metadata := caml_hash_variant .Search_for_metadata
    var_Read_metadata := caml_hash_variant .Read_metadata
    var_Search_for_frame_sync := caml_hash_variant .Search_for_frame_sync
    var_Read_frame := caml_hash_variant .Read_frame
    var_End_of_stream := caml_hash_variant .End_of_stream
    var_Ogg_error := caml_hash_variant .Ogg_error
    var_Seek_error := caml_hash_variant .Seek_error
    var_Aborted := caml_hash_variant .Aborted
    var_Memory_allocation_error := caml_hash_variant .Memory_allocation_error
    var_Uninitialized := caml_hash_variant .Uninitialized
    var_Unknown := caml_hash_variant .Unknown }

/-- `val_of_state`: the `switch` over the native status code. -/
def val_of_state (t : VariantTable) (k : StateCodes) (s : Int) : Int :=
  if s = k.SEARCH_FOR_METADATA then t.var_Search_for_metadata
  else if s = k.READ_METADATA then t.var_Read_metadata
  else if s = k.SEARCH_FOR_FRAME_SYNC then t.var_Search_for_frame_sync
  else if s = k.READ_FRAME then t.var_Read_frame
  else if s = k.END_OF_STREAM then t.var_End_of_stream
  else if s = k.OGG_ERROR then t.var_Ogg_error
  else if s = k.SEEK_ERROR then t.var_Seek_error
  else if s = k.ABORTED then t.var_Aborted
  else if s = k.MEMORY_ALLOCATION_ERROR then t.var_Memory_allocation_error
  else if s = k.UNINITIALIZED then t.var_Uninitialized
  else t.var_Unknown

/-! ## Data model -/

/-- A machine pointer. -/
abbrev Ptr := Nat

/-- The engine's sample memory: the `FLAC__int32` array found at each pointer
(empty where nothing is readable). -/
abbrev Mem := Ptr → List Int

/-- `sizeof(FLAC__int32)`. -/
def sizeof_int32 : Nat := 4

/-- `sizeof(FLAC__int32 *)` on the LP64 platform. -/
def sizeof_ptr : Nat := 8

/-- `FLAC__StreamMetadata_StreamInfo`, restricted to the members the stubs read;
`remainder` stands for its other members (block and frame size bounds). -/
structure FLAC__StreamMetadata_StreamInfo where
  sample_rate : Nat
  channels : Nat
  bits_per_sample : Nat
  total_samples : Nat
  md5sum : Fin 16 → Nat
  remainder : List Nat

/-- `FLAC__MetadataType`. -/
inductive FLAC__MetadataType where
  | STREAMINFO
  | PADDING
  | APPLICATION
  | SEEKTABLE
  | VORBIS_COMMENT
  | CUESHEET
  | PICTURE
  | UNDEFINED
  deriving DecidableEq, Repr

/-- `FLAC__StreamMetadata`: the block type and the `data.stream_info` view of its
union. -/
structure FLAC__StreamMetadata where
  type : FLAC__MetadataType
  stream_info : FLAC__StreamMetadata_StreamInfo

/-- `FLAC__FrameHeader`, restricted to the members the stubs read; `remainder`
stands for the others (sample rate, channel assignment, frame number, crc). -/
structure FLAC__FrameHeader where
  blocksize : Nat
  channels : Nat
  bits_per_sample : Nat
  remainder : List Nat

/-- `FLAC__Frame`: the header, and the bytes of the subframes and footer. -/
structure FLAC__Frame where
  header : FLAC__FrameHeader
  remainder : List Nat

/-- `ocaml_flac_decoder_callbacks`: the client data shared by all callbacks.
`read_f` is the OCaml closure (its answer to a request for `n` bytes is a string and
a length); `out_buf` is `NULL` or the words of the block it points to. -/
structure ocaml_flac_decoder_callbacks where
  read_f : Nat → List Nat × Int
  out_buf : Option (List Ptr)
  out_frame : FLAC__Frame
  info : Option FLAC__StreamMetadata_StreamInfo

/-- The native decoder instance, as far as the stubs observe it: its status. -/
structure FLAC__StreamDecoder where
  state : Int

/-- `ocaml_flac_decoder`: `decoder` is `NULL` or the native instance. -/
structure ocaml_flac_decoder where
  decoder : Option FLAC__StreamDecoder
  callbacks : ocaml_flac_decoder_callbacks

/-- `FLAC__StreamDecoderReadStatus`. -/
inductive FLAC__StreamDecoderReadStatus where
  | CONTINUE
  | END_OF_STREAM
  | ABORT
  deriving DecidableEq, Repr

/-- `FLAC__StreamDecoderWriteStatus`. -/
inductive FLAC__StreamDecoderWriteStatus where
  | CONTINUE
  | ABORT
  deriving DecidableEq, Repr

/-- The OCaml exceptions of the binding: `ogg_exn_out_of_sync` is the one the stubs
look up by name; `allocation_error` is the one the specification names for a
failed construction (no stub raises it). -/
inductive Exn where
  | ogg_exn_out_of_sync
  | allocation_error
  deriving DecidableEq, Repr

/-- How a stub call ends: it returns a value, raises, or runs into undefined
behaviour (a `NULL` or out-of-bounds access). -/
inductive Outcome (α : Type) where
  | value (a : α)
  | raised (e : Exn)
  | undefined
  deriving DecidableEq, Repr

/-! ## Callbacks -/

/-- `cpy_out_buf`.  `buffer` is the memory at the address the engine passed, read
as pointer-sized words: `buffer c` for `c < channels` is the engine's buffer for
channel `c`.  The previous block is freed, a block of `len` bytes is allocated and
`memcpy` fills it with the `len` bytes found at `buffer`, that is, with the first
`len / sizeof_ptr` whole words. -/
def cpy_out_buf (callbacks : ocaml_flac_decoder_callbacks) (buffer : Nat → Ptr)
    (frame : FLAC__Frame) : ocaml_flac_decoder_callbacks :=
  let samples := frame.header.blocksize
  let channels := frame.header.channels
  let bits_per_sample := frame.header.bits_per_sample
  let len := sizeof_int32 * samples * channels * bits_per_sample / 8
  { callbacks with
    out_buf := some ((List.range (len / sizeof_ptr)).map buffer)
    out_frame := frame }

/-- `metadata_callback`. -/
def metadata_callback (callbacks : ocaml_flac_decoder_callbacks)
    (metadata : FLAC__StreamMetadata) : ocaml_flac_decoder_callbacks :=
  if metadata.type = FLAC__MetadataType.STREAMINFO then
    { callbacks with info := some metadata.stream_info }
  else callbacks

/-- `error_callback`: returns at once. -/
def error_callback (callbacks : ocaml_flac_decoder_callbacks) (_status : Nat) :
    ocaml_flac_decoder_callbacks :=
  callbacks

/-- `write_callback`. -/
def write_callback (callbacks : ocaml_flac_decoder_callbacks) (frame : FLAC__Frame)
    (buffer : Nat → Ptr) : FLAC__StreamDecoderWriteStatus × ocaml_flac_decoder_callbacks :=
  (FLAC__StreamDecoderWriteStatus.CONTINUE, cpy_out_buf callbacks buffer frame)

/-- The conversion of an `int` to the `size_t` argument of `memcpy`. -/
def size_t_of_int (n : Int) : Nat := (n % 2 ^ 64).toNat

/-- `memcpy(dst, src, n)` on byte arrays; undefined when either array is shorter
than `n`. -/
def memcpy (dst src : List Nat) (n : Nat) : Option (List Nat) :=
  if n ≤ src.length ∧ n ≤ dst.length then some (src.take n ++ dst.drop n) else none

/-- What `read_callback` leaves behind: the returned status, the native buffer, and
the in/out byte count `*bytes`. -/
structure ReadResult where
  status : FLAC__StreamDecoderReadStatus
  buffer : List Nat
  bytes : Nat
  deriving DecidableEq, Repr

/-- `read_callback`: calls the closure with `*bytes`, copies `len` bytes of the
returned string to the native buffer and returns `CONTINUE`.  `*bytes` is only
read. -/
def read_callback (callbacks : ocaml_flac_decoder_callbacks) (buffer : List Nat)
    (bytes : Nat) : Option ReadResult :=
  let ret := callbacks.read_f bytes
  let data := ret.1
  let len := ret.2
  match memcpy buffer data (size_t_of_int len) with
  | none => none
  | some buffer1 =>
    some { status := FLAC__StreamDecoderReadStatus.CONTINUE, buffer := buffer1, bytes := bytes }

/-- One invocation of an adapter callback by the native engine. -/
inductive EngineCall where
  | read (buffer : List Nat) (bytes : Nat)
  | write (frame : FLAC__Frame) (buffer : Nat → Ptr)
  | metadata (block : FLAC__StreamMetadata)
  | error (status : Nat)

/-- The effect of one callback on the client data.  `read_callback` has no access
to a member other than `read_f`, which it only calls. -/
def dispatch (callbacks : ocaml_flac_decoder_callbacks) :
    EngineCall → ocaml_flac_decoder_callbacks
  | .read _ _ => callbacks
  | .write frame buffer => (write_callback callbacks frame buffer).2
  | .metadata block => metadata_callback callbacks block
  | .error status => error_callback callbacks status

/-- The client data after the engine made the given calls, in order. -/
def run_calls (callbacks : ocaml_flac_decoder_callbacks) (calls : List EngineCall) :
    ocaml_flac_decoder_callbacks :=
  calls.foldl dispatch callbacks

/-! ## Native calls -/

/-- What the engine did during one native call: the callbacks it invoked, its status
code afterwards, and its sample memory when the call returns. -/
structure EngineRun where
  calls : List EngineCall
  state : Int
  memory : Mem

/-- `FLAC__stream_decoder_process_single(dec->decoder)` seen from the stubs: the
callbacks act on `dec->callbacks`, the instance takes its new status. -/
def process_single (dec : ocaml_flac_decoder) (run : EngineRun) : ocaml_flac_decoder :=
  { decoder := dec.decoder.map (fun _ => { state := run.state })
    callbacks := run_calls dec.callbacks run.calls }

/-- The C expression `callbacks->out_buf[c][i]`: word `c` of the block `out_buf`
points to, dereferenced at index `i` in the engine's sample memory. -/
def out_buf_at (callbacks : ocaml_flac_decoder_callbacks) (memory : Mem) (c i : Nat) :
    Option Int :=
  match callbacks.out_buf with
  | none => none
  | some block =>
    match block[c]? with
    | none => none
    | some p => (memory p)[i]?

/-- The loop `for (i = 0; i < n; i++) body`, threading the state it updates. -/
def for_loop {σ : Type} (n : Nat) (body : Nat → σ → Option σ) (init : σ) : Option σ :=
  (List.range n).foldlM (fun s i => body i s) init

/-! ## Stubs -/

/-- `ocaml_flac_decoder_state`. -/
def ocaml_flac_decoder_state (t : VariantTable) (k : StateCodes) (dec : ocaml_flac_decoder) :
    Outcome Int :=
  match dec.decoder with
  | none => .undefined
  | some d => .value (val_of_state t k d.state)

/-- The 5-tuple built by `ocaml_flac_decoder_info`. -/
abbrev InfoTuple := Nat × Nat × Nat × Nat × List Nat

/-- `ocaml_flac_decoder_info`. -/
def ocaml_flac_decoder_info (dec : ocaml_flac_decoder) : Outcome InfoTuple :=
  match dec.callbacks.info with
  | none => .raised Exn.ogg_exn_out_of_sync
  | some info =>
    .value (info.sample_rate, info.channels, info.bits_per_sample, info.total_samples,
      List.ofFn info.md5sum)

/-- A binary64 value, given by its exact numeric value.  Every double the stubs
store is the conversion of an integer, hence itself an integer. -/
abbrev Double := Int

/-- The C conversion `(double) n` of an integer: the nearest binary64 value, that
is, `n` rounded to a 53-bit significand, ties to even. -/
def double_of_int (n : Int) : Double :=
  let a := n.natAbs
  if a < 2 ^ 53 then n
  else
    let sh := Nat.log2 a - 52
    let q := a / 2 ^ sh
    let r := a % 2 ^ sh
    let half := 2 ^ (sh - 1)
    let q1 := if half < r ∨ (r = half ∧ q % 2 = 1) then q + 1 else q
    Int.sign n * ((q1 * 2 ^ sh : Nat) : Int)

/-- `Store_double_field(Field(ans, c), i, d)`. -/
def store_double_field (ans : List (List Double)) (c i : Nat) (d : Double) :
    Option (List (List Double)) :=
  match ans[c]? with
  | none => none
  | some row => if i < row.length then some (ans.set c (row.set i d)) else none

/-- The first loop of `ocaml_flac_decoder_read`: one float array of `samples`
elements per channel. -/
def read_alloc (channels samples : Nat) : Option (List (List Double)) :=
  for_loop channels
    (fun c ans => if c < ans.length then some (ans.set c (List.replicate samples 0)) else none)
    (List.replicate channels [])

/-- The second (nested) loop of `ocaml_flac_decoder_read`. -/
def read_fill (callbacks : ocaml_flac_decoder_callbacks) (memory : Mem)
    (channels samples : Nat) (ans : List (List Double)) : Option (List (List Double)) :=
  for_loop channels
    (fun c ans =>
      for_loop samples
        (fun i ans =>
          match out_buf_at callbacks memory c i with
          | none => none
          | some v => store_double_field ans c i (double_of_int v))
        ans)
    ans

/-- The part of `ocaml_flac_decoder_read` after the decode step. -/
def read_convert (callbacks : ocaml_flac_decoder_callbacks) (memory : Mem) :
    Option (List (List Double)) :=
  let channels := callbacks.out_frame.header.channels
  let samples := callbacks.out_frame.header.blocksize
  (read_alloc channels samples).bind (read_fill callbacks memory channels samples)

/-- `ocaml_flac_decoder_read`: the result and the handle afterwards. -/
def ocaml_flac_decoder_read (dec : ocaml_flac_decoder) (run : EngineRun) :
    Outcome (List (List Double)) × ocaml_flac_decoder :=
  let dec1 := process_single dec run
  match read_convert dec1.callbacks run.memory with
  | none => (.undefined, dec1)
  | some ans => (.value ans, dec1)

/-- The assignment `pcm[k] = v` through the `int16_t *` view of the string: the low
16 bits of `v`, low byte first. -/
def store_int16 (pcm : List Nat) (k : Nat) (v : Int) : Option (List Nat) :=
  if 2 * k + 1 < pcm.length then
    let w := (v % 2 ^ 16).toNat
    some ((pcm.set (2 * k) (w % 256)).set (2 * k + 1) (w / 256))
  else none

/-- The nested loop of `ocaml_flac_decoder_read_pcm`. -/
def read_pcm_fill (callbacks : ocaml_flac_decoder_callbacks) (memory : Mem)
    (channels samples : Nat) (pcm : List Nat) : Option (List Nat) :=
  for_loop samples
    (fun i pcm =>
      for_loop channels
        (fun c pcm =>
          match out_buf_at callbacks memory c i with
          | none => none
          | some v => store_int16 pcm (i * channels + c) v)
        pcm)
    pcm

/-- The part of `ocaml_flac_decoder_read_pcm` after the decode step. -/
def read_pcm_convert (callbacks : ocaml_flac_decoder_callbacks) (memory : Mem) :
    Option (List Nat) :=
  let channels := callbacks.out_frame.header.channels
  let samples := callbacks.out_frame.header.blocksize
  read_pcm_fill callbacks memory channels samples (List.replicate (channels * samples * 2) 0)

/-- `ocaml_flac_decoder_read_pcm`: the result and the handle afterwards. -/
def ocaml_flac_decoder_read_pcm (dec : ocaml_flac_decoder) (run : EngineRun) :
    Outcome (List Nat) × ocaml_flac_decoder :=
  let dec1 := process_single dec run
  match read_pcm_convert dec1.callbacks run.memory with
  | none => (.undefined, dec1)
  | some ans => (.value ans, dec1)

/-- The libFLAC entry points `ocaml_flac_decoder_create` calls, with the decoder
argument it passes (`none` is `NULL`).  `init_stream` is the call that installs the
eight adapter callbacks. -/
inductive NativeCall where
  | stream_decoder_new
  | init_stream (decoder : Option FLAC__StreamDecoder)
  | process_until_end_of_metadata (decoder : Option FLAC__StreamDecoder)

/-- What `ocaml_flac_decoder_create` gets from its environment: the result of
`malloc(sizeof(ocaml_flac_decoder))` (`none` is `NULL`, otherwise the garbage found
in the `out_frame` member of the block), the result of `FLAC__stream_decoder_new`,
and what the engine does during `init_stream` and
`process_until_end_of_metadata`. -/
structure CreateEnv where
  malloc_dec : Option FLAC__Frame
  new_decoder : Option FLAC__StreamDecoder
  run : EngineRun

/-- `ocaml_flac_decoder_create`: the outcome and the native calls made, in order.
Neither allocation is tested.  A `NULL` block is written through at once; a `NULL`
decoder is handed to `FLAC__stream_decoder_init_stream`, which dereferences it. -/
def ocaml_flac_decoder_create (read_func : Nat → List Nat × Int) (env : CreateEnv) :
    Outcome ocaml_flac_decoder × List NativeCall :=
  match env.malloc_dec with
  | none => (.undefined, [.stream_decoder_new])
  | some garbage =>
    match env.new_decoder with
    | none => (.undefined, [.stream_decoder_new, .init_stream none])
    | some _ =>
      let callbacks0 : ocaml_flac_decoder_callbacks :=
        { read_f := read_func, out_buf := none, out_frame := garbage, info := none }
      (.value { decoder := some { state := env.run.state }
                callbacks := run_calls callbacks0 env.run.calls },
       [.stream_decoder_new, .init_stream env.new_decoder,
        .process_until_end_of_metadata env.new_decoder])

/-! ## Vocabulary of the statements -/

/-- Some call in the list is a metadata callback carrying a stream-info block. -/
def has_streaminfo (calls : List EngineCall) : Prop :=
  ∃ block, EngineCall.metadata block ∈ calls ∧ block.type = FLAC__MetadataType.STREAMINFO

/-- The stream-info block carried by a call, if it is a metadata callback with one. -/
def streaminfo_of : EngineCall → Option FLAC__StreamMetadata_StreamInfo
  | .metadata block =>
    if block.type = FLAC__MetadataType.STREAMINFO then some block.stream_info else none
  | _ => none

/-- The stream-info block of the last metadata callback that carried one. -/
def last_streaminfo : List EngineCall → Option FLAC__StreamMetadata_StreamInfo
  | [] => none
  | call :: rest =>
    match last_streaminfo rest with
    | some info => some info
    | none => streaminfo_of call

/-- Some call in the list is a write callback. -/
def has_write (calls : List EngineCall) : Prop :=
  ∃ frame buffer, EngineCall.write frame buffer ∈ calls

/-- The tuple `ocaml_flac_decoder_info` builds from a stream-info block. -/
def info_tuple (info : FLAC__StreamMetadata_StreamInfo) : InfoTuple :=
  (info.sample_rate, info.channels, info.bits_per_sample, info.total_samples,
    List.ofFn info.md5sum)

/-- A frame with the given channel count, block size and bit depth. -/
def frame_of (channels blocksize bits_per_sample : Nat) : FLAC__Frame :=
  { header := { blocksize := blocksize, channels := channels,
                bits_per_sample := bits_per_sample, remainder := [] }
    remainder := [] }

/-- A stream-info block: 44100 Hz, stereo, 16 bits, 4 samples. -/
def sample_streaminfo : FLAC__StreamMetadata_StreamInfo :=
  { sample_rate := 44100, channels := 2, bits_per_sample := 16, total_samples := 4,
    md5sum := fun i => i.val, remainder := [] }

/-- A freshly created cache whose closure answers every request with two bytes. -/
def fresh_callbacks : ocaml_flac_decoder_callbacks :=
  { read_f := fun _ => ([97, 98], 2), out_buf := none, out_frame := frame_of 7 9 3,
    info := none }

/-- The engine's pointer table: channel 0 at 100, channel 1 at 200. -/
def engine_buffer : Nat → Ptr := fun c => if c = 0 then 100 else if c = 1 then 200 else 0

/-- Engine memory while a stereo frame of two samples is delivered. -/
def memory_at_delivery : Mem :=
  fun p => if p = 100 then [1, -2] else if p = 200 then [70000, -32769] else []

/-- Engine memory after the engine has released its two buffers and the blocks have
been reused. -/
def memory_reused : Mem :=
  fun p => if p = 100 then [5, 6] else if p = 200 then [7, 8] else []

/-- A handle around the fresh cache, its decoder still uninitialised. -/
def fresh_decoder : ocaml_flac_decoder :=
  { decoder := some { state := 9 }, callbacks := fresh_callbacks }

/-- A decode step that delivers one stereo frame of two 16-bit samples. -/
def run_with_frame : EngineRun :=
  { calls := [.read [0, 0, 0, 0] 4, .write (frame_of 2 2 16) engine_buffer]
    state := 2
    memory := memory_at_delivery }

/-- A decode step without a write callback: the engine pulls bytes, releases its
output buffers to make room for a larger frame, fails to allocate, and stops in state
8 (memory allocation error).  The released buffers have been reused by then. -/
def run_without_frame : EngineRun :=
  { calls := [.read [0, 0, 0, 0] 4]
    state := 8
    memory := memory_reused }

/-- An environment in which `FLAC__stream_decoder_new` returns `NULL`. -/
def env_null_decoder : CreateEnv :=
  { malloc_dec := some (frame_of 0 0 0)
    new_decoder := none
    run := { calls := [], state := 9, memory := fun _ => [] } }

/-- An environment in which the handle's own `malloc` returns `NULL`. -/
def env_null_malloc : CreateEnv :=
  { malloc_dec := none
    new_decoder := some { state := 9 }
    run := { calls := [], state := 9, memory := fun _ => [] } }

end OcamlFlac

namespace OcamlFlac

/-! ## State translator: theorems -/

/-- C1: `val_of_state` is defined on every integer.  With the table filled by
`ocaml_flac_stubs_initialize`, each of the ten native codes is sent to the variant
of the same name, every other integer to `Unknown`, and `ocaml_flac_decoder_state`
returns that value for the status of the handle's decoder. -/
theorem val_of_state_total (hash : Variant → Int) (k : StateCodes) (hk : k.labels.Nodup) :
    val_of_state ( ocaml_flac_stubs_initialize hash) k k.SEARCH_FOR_METADATA
        = hash .Search_for_metadata ∧
    val_of_state ( ocaml_flac_stubs_initialize hash) k k.READ_METADATA
        = hash .Read_metadata ∧
    val_of_state ( ocaml_flac_stubs_initialize hash) k k.SEARCH_FOR_FRAME_SYNC
        = hash .Search_for_frame_sync ∧
    val_of_state ( ocaml_flac_stubs_initialize hash) k k.READ_FRAME
        = hash .Read_frame ∧
    val_of_state ( ocaml_flac_stubs_initialize hash) k k.END_OF_STREAM
        = hash .End_of_stream ∧
    val_of_state ( ocaml_flac_stubs_initialize hash) k k.OGG_ERROR
        = hash .Ogg_error ∧
    val_of_state ( ocaml_flac_stubs_initialize hash) k k.SEEK_ERROR
        = hash .Seek_error ∧
    val_of_state ( ocaml_flac_stubs_initialize hash) k k.ABORTED
        = hash .Aborted ∧
    val_of_state ( ocaml_flac_stubs_initialize hash) k k.MEMORY_ALLOCATION_ERROR
        = hash .Memory_allocation_error ∧
    val_of_state ( ocaml_flac_stubs_initialize hash) k k.UNINITIALIZED
        = hash .Uninitialized ∧
    (∀ s : Int, s ∉ k.labels →
      val_of_state ( ocaml_flac_stubs_initialize hash) k s = hash .Unknown) ∧
    (∀ (callbacks : ocaml_flac_decoder_callbacks) (s : Int),
      ocaml_flac_decoder_state ( ocaml_flac_stubs_initialize hash) k
          { decoder := some { state := s }, callbacks := callbacks }
        = .value (val_of_state ( ocaml_flac_stubs_initialize hash) k s)) := by
  simp only [StateCodes.labels, List.nodup_cons, List.mem_cons, List.mem_singleton,
    List.not_mem_nil, or_false, not_or, List.nodup_nil, and_true] at hk
  obtain ⟨⟨h01, h02, h03, h04, h05, h06, h07, h08, h09⟩,
    ⟨h12, h13, h14, h15, h16, h17, h18, h19⟩, ⟨h23, h24, h25, h26, h27, h28, h29⟩,
    ⟨h34, h35, h36, h37, h38, h39⟩, ⟨h45, h46, h47, h48, h49⟩, ⟨h56, h57, h58, h59⟩,
    ⟨h67, h68, h69⟩, ⟨h78, h79⟩, h89, -⟩ := hk
  refine ⟨?_, ?_, ?_, ?_, ?_, ?_, ?_, ?_, ?_, ?_, ?_, ?_⟩
  · simp [val_of_state, ocaml_flac_stubs_initialize]
  · simp [val_of_state, ocaml_flac_stubs_initialize, Ne.symm h01]
  · simp [val_of_state, ocaml_flac_stubs_initialize, Ne.symm h02, Ne.symm h12]
  · simp [val_of_state, ocaml_flac_stubs_initialize, Ne.symm h03, Ne.symm h13, Ne.symm h23]
  · simp [val_of_state, ocaml_flac_stubs_initialize, Ne.symm h04, Ne.symm h14, Ne.symm h24,
      Ne.symm h34]
  · simp [val_of_state, ocaml_flac_stubs_initialize, Ne.symm h05, Ne.symm h15, Ne.symm h25,
      Ne.symm h35, Ne.symm h45]
  · simp [val_of_state, ocaml_flac_stubs_initialize, Ne.symm h06, Ne.symm h16, Ne.symm h26,
      Ne.symm h36, Ne.symm h46, Ne.symm h56]
  · simp [val_of_state, ocaml_flac_stubs_initialize, Ne.symm h07, Ne.symm h17, Ne.symm h27,
      Ne.symm h37, Ne.symm h47, Ne.symm h57, Ne.symm h67]
  · simp [val_of_state, ocaml_flac_stubs_initialize, Ne.symm h08, Ne.symm h18, Ne.symm h28,
      Ne.symm h38, Ne.symm h48, Ne.symm h58, Ne.symm h68, Ne.symm h78]
  · simp [val_of_state, ocaml_flac_stubs_initialize, Ne.symm h09, Ne.symm h19, Ne.symm h29,
      Ne.symm h39, Ne.symm h49, Ne.symm h59, Ne.symm h69, Ne.symm h79, Ne.symm h89]
  · intro s hs
    simp only [StateCodes.labels, List.mem_cons, List.mem_singleton, List.not_mem_nil,
      or_false, not_or] at hs
    obtain ⟨g0, g1, g2, g3, g4, g5, g6, g7, g8, g9⟩ := hs
    simp [val_of_state, ocaml_flac_stubs_initialize, g0, g1, g2, g3, g4, g5, g6, g7, g8, g9]
  · intro callbacks s
    rfl

/-- Witness for C1 at libFLAC's enumerator values and a sample hash. -/
theorem val_of_state_total_witness :
    val_of_state ( ocaml_flac_stubs_initialize (fun v => if v = .Read_frame then 7 else 1))
      libflacCodes libflacCodes.READ_FRAME = 7 :=
  (val_of_state_total (fun v => if v = .Read_frame then 7 else 1) libflacCodes
    (by decide)).2.2.2.1

end OcamlFlac

namespace OcamlFlac

/-! ## Stream-info slot: lemmas -/

theorem dispatch_info (callbacks : ocaml_flac_decoder_callbacks) (call : EngineCall) :
    (dispatch callbacks call).info =
      match streaminfo_of call with
      | some info => some info
      | none => callbacks.info := by
  cases call with
  | read buffer bytes => rfl
  | write frame buffer => rfl
  | error status => rfl
  | metadata block =>
    by_cases h : block.type = FLAC__MetadataType.STREAMINFO
    · simp [dispatch, metadata_callback, streaminfo_of, h]
    · simp [dispatch, metadata_callback, streaminfo_of, h]

theorem run_calls_cons (callbacks : ocaml_flac_decoder_callbacks) (call : EngineCall)
    (rest : List EngineCall) :
    run_calls callbacks (call :: rest) = run_calls (dispatch callbacks call) rest := rfl

theorem run_calls_append (callbacks : ocaml_flac_decoder_callbacks)
    (first later : List EngineCall) :
    run_calls callbacks (first ++ later) = run_calls (run_calls callbacks first) later := by
  simp [run_calls, List.foldl_append]

theorem run_calls_info (calls : List EngineCall) (callbacks : ocaml_flac_decoder_callbacks) :
    (run_calls callbacks calls).info =
      match last_streaminfo calls with
      | some info => some info
      | none => callbacks.info := by
  induction calls generalizing callbacks with
  | nil => rfl
  | cons call rest ih =>
    rw [run_calls_cons, ih, dispatch_info]
    simp only [last_streaminfo]
    cases last_streaminfo rest <;> rfl

theorem streaminfo_of_eq_none_iff (call : EngineCall) :
    streaminfo_of call = none ↔
      ∀ block, call = EngineCall.metadata block → block.type ≠ FLAC__MetadataType.STREAMINFO := by
  cases call with
  | read buffer bytes => simp [streaminfo_of]
  | write frame buffer => simp [streaminfo_of]
  | error status => simp [streaminfo_of]
  | metadata block =>
    by_cases h : block.type = FLAC__MetadataType.STREAMINFO
    · simp [streaminfo_of, h]
    · simp only [streaminfo_of, h, if_false, true_iff]
      intro b hb
      cases hb
      exact h

theorem last_streaminfo_eq_none_iff (calls : List EngineCall) :
    last_streaminfo calls = none ↔ ¬ has_streaminfo calls := by
  induction calls with
  | nil => simp [last_streaminfo, has_streaminfo]
  | cons call rest ih =>
    simp only [last_streaminfo]
    constructor
    · intro h
      cases hr : last_streaminfo rest with
      | some info => rw [hr] at h; cases h
      | none =>
        rw [hr] at h
        simp only at h
        rintro ⟨block, hmem, hty⟩
        rcases List.mem_cons.1 hmem with hhead | htail
        · exact (streaminfo_of_eq_none_iff call).1 h block hhead.symm hty
        · exact (ih.1 hr) ⟨block, htail, hty⟩
    · intro h
      have hrest : last_streaminfo rest = none :=
        ih.2 (fun ⟨block, hmem, hty⟩ => h ⟨block, List.mem_cons_of_mem _ hmem, hty⟩)
      rw [hrest]
      simp only
      exact (streaminfo_of_eq_none_iff call).2
        (fun block hb hty => h ⟨block, by simp [hb], hty⟩)

end OcamlFlac

namespace OcamlFlac

theorem dispatch_frame_of_not_write (callbacks : ocaml_flac_decoder_callbacks)
    (call : EngineCall) (h : ∀ frame buffer, call ≠ EngineCall.write frame buffer) :
    (dispatch callbacks call).out_buf = callbacks.out_buf ∧
    (dispatch callbacks call).out_frame = callbacks.out_frame := by
  cases call with
  | read buffer bytes => exact ⟨rfl, rfl⟩
  | write frame buffer => exact absurd rfl (h frame buffer)
  | error status => exact ⟨rfl, rfl⟩
  | metadata block =>
    by_cases hb : block.type = FLAC__MetadataType.STREAMINFO <;>
      simp [dispatch, metadata_callback, hb]

theorem run_calls_frame_of_no_write (calls : List EngineCall)
    (callbacks : ocaml_flac_decoder_callbacks) (h : ¬ has_write calls) :
    (run_calls callbacks calls).out_buf = callbacks.out_buf ∧
    (run_calls callbacks calls).out_frame = callbacks.out_frame := by
  induction calls generalizing callbacks with
  | nil => exact ⟨rfl, rfl⟩
  | cons call rest ih =>
    have hrest : ¬ has_write rest :=
      fun ⟨frame, buffer, hmem⟩ => h ⟨frame, buffer, List.mem_cons_of_mem _ hmem⟩
    have hcall : ∀ frame buffer, call ≠ EngineCall.write frame buffer :=
      fun frame buffer hc => h ⟨frame, buffer, by simp [hc]⟩
    rw [run_calls_cons]
    obtain ⟨h1, h2⟩ := ih (dispatch callbacks call) hrest
    obtain ⟨h3, h4⟩ := dispatch_frame_of_not_write callbacks call hcall
    exact ⟨h1.trans h3, h2.trans h4⟩

theorem callbacks_ext (a b : ocaml_flac_decoder_callbacks) (h1 : a.read_f = b.read_f)
    (h2 : a.out_buf = b.out_buf) (h3 : a.out_frame = b.out_frame) (h4 : a.info = b.info) :
    a = b := by
  cases a; cases b; simp_all

/-! ## Stream-info slot: theorems -/

/-- C2: for a handle whose cache started with an empty stream-info slot and then saw
any sequence of callbacks, `ocaml_flac_decoder_info` raises the out-of-sync exception
exactly when no metadata callback carried a stream-info block; otherwise it returns
the five fields of the last such block, the checksum being 16 bytes long; and
callbacks that carry no stream-info block do not change its answer. -/
theorem info_out_of_sync_iff (callbacks : ocaml_flac_decoder_callbacks)
    (hfresh : callbacks.info = none) (calls : List EngineCall)
    (decoder : Option FLAC__StreamDecoder) :
    (ocaml_flac_decoder_info { decoder := decoder, callbacks := run_calls callbacks calls }
        = .raised Exn.ogg_exn_out_of_sync ↔ ¬ has_streaminfo calls) ∧
    (has_streaminfo calls → ∃ info, last_streaminfo calls = some info) ∧
    (∀ info, last_streaminfo calls = some info →
      ocaml_flac_decoder_info { decoder := decoder, callbacks := run_calls callbacks calls }
        = .value (info.sample_rate, info.channels, info.bits_per_sample, info.total_samples,
            List.ofFn info.md5sum) ∧
      (List.ofFn info.md5sum).length = 16) ∧
    (∀ (later : List EngineCall) (decoder2 : Option FLAC__StreamDecoder),
      ¬ has_streaminfo later →
      ocaml_flac_decoder_info
          { decoder := decoder2, callbacks := run_calls (run_calls callbacks calls) later }
        = ocaml_flac_decoder_info
          { decoder := decoder, callbacks := run_calls callbacks calls }) := by
  have hinfo := run_calls_info calls callbacks
  refine ⟨?_, ?_, ?_, ?_⟩
  · rw [← last_streaminfo_eq_none_iff]
    cases hl : last_streaminfo calls with
    | none =>
      rw [hl] at hinfo
      simp [ocaml_flac_decoder_info, hinfo, hfresh]
    | some info =>
      rw [hl] at hinfo
      simp [ocaml_flac_decoder_info, hinfo]
  · intro h
    cases hl : last_streaminfo calls with
    | none => exact absurd h ((last_streaminfo_eq_none_iff calls).1 hl)
    | some info => exact ⟨info, rfl⟩
  · intro info hl
    rw [hl] at hinfo
    refine ⟨?_, List.length_ofFn _⟩
    simp [ocaml_flac_decoder_info, hinfo]
  · intro later decoder2 hlater
    have h2 := run_calls_info later (run_calls callbacks calls)
    rw [(last_streaminfo_eq_none_iff later).2 hlater] at h2
    simp only at h2
    simp only [ocaml_flac_decoder_info, h2]

/-- Witness for C2: a fresh cache that saw one stream-info block and then a frame. -/
theorem info_out_of_sync_iff_witness :
    ocaml_flac_decoder_info
        { decoder := none
          callbacks := run_calls fresh_callbacks
            [.metadata { type := .STREAMINFO, stream_info := sample_streaminfo },
             .write (frame_of 2 2 16) engine_buffer] }
      = .value (44100, 2, 16, 4, [0, 1, 2, 3, 4, 5, 6, 7, 8, 9, 10, 11, 12, 13, 14, 15]) :=
  ((info_out_of_sync_iff fresh_callbacks rfl
      [.metadata { type := .STREAMINFO, stream_info := sample_streaminfo },
       .write (frame_of 2 2 16) engine_buffer] none).2.2.1 sample_streaminfo rfl).1

end OcamlFlac

namespace OcamlFlac

/-! ## Read bridge -/

end OcamlFlac

namespace OcamlFlac

/-! ## Behaviour at concrete inputs -/

/-- C5: a stereo frame of two 16-bit samples is delivered to `write_callback`.  The
callback returns `CONTINUE` and the cached header is the delivered one, but the block
`out_buf` points to holds the engine's own channel pointers (100 and 200): the cached
sample `[0][0]` is 1 while the engine's buffer holds 1, and 5 once that memory has
been reused. -/
theorem write_callback_aliases_engine_buffers :
    (write_callback fresh_callbacks (frame_of 2 2 16) engine_buffer).1
      = FLAC__StreamDecoderWriteStatus.CONTINUE ∧
    (write_callback fresh_callbacks (frame_of 2 2 16) engine_buffer).2.out_frame
      = frame_of 2 2 16 ∧
    (write_callback fresh_callbacks (frame_of 2 2 16) engine_buffer).2.out_buf
      = some [100, 200, 0, 0] ∧
    out_buf_at (write_callback fresh_callbacks (frame_of 2 2 16) engine_buffer).2
      memory_at_delivery 0 0 = some 1 ∧
    out_buf_at (write_callback fresh_callbacks (frame_of 2 2 16) engine_buffer).2
      memory_reused 0 0 = some 5 := by
  refine ⟨rfl, rfl, ?_, ?_, ?_⟩ <;> decide

/-- C7: four bytes are requested and the closure returns two.  `read_callback`
returns `CONTINUE` and copies the two bytes, and the byte count handed back to the
engine is still 4. -/
theorem read_callback_leaves_byte_count :
    read_callback fresh_callbacks [10, 11, 12, 13] 4
      = some { status := FLAC__StreamDecoderReadStatus.CONTINUE
               buffer := [97, 98, 12, 13]
               bytes := 4 } := by
  decide

/-- C9: when `FLAC__stream_decoder_new` returns `NULL`, `ocaml_flac_decoder_create`
raises nothing: it goes on to call `FLAC__stream_decoder_init_stream` with the `NULL`
decoder.  When its own `malloc` returns `NULL` it raises nothing either: it writes
through the `NULL` block. -/
theorem create_ignores_failed_allocation :
    ocaml_flac_decoder_create fresh_callbacks.read_f env_null_decoder
      = (.undefined, [.stream_decoder_new, .init_stream none]) ∧
    ocaml_flac_decoder_create fresh_callbacks.read_f env_null_malloc
      = (.undefined, [.stream_decoder_new]) :=
  ⟨rfl, rfl⟩

/-- C10: a decode step delivers a frame, the next one ends in an error state without
a write callback after the engine has released its buffers.  The cache is the same
after both steps, yet the second `ocaml_flac_decoder_read` and
`ocaml_flac_decoder_read_pcm` return what the memory behind the cached pointers holds
by then, not the result of the preceding call. -/
theorem stale_read_follows_engine_memory :
    (ocaml_flac_decoder_read fresh_decoder run_with_frame).1
      = .value [[1, -2], [70000, -32769]] ∧
    (ocaml_flac_decoder_read (ocaml_flac_decoder_read fresh_decoder run_with_frame).2
        run_without_frame).1
      = .value [[5, 6], [7, 8]] ∧
    (ocaml_flac_decoder_read (ocaml_flac_decoder_read fresh_decoder run_with_frame).2
        run_without_frame).2.callbacks
      = (ocaml_flac_decoder_read fresh_decoder run_with_frame).2.callbacks ∧
    (ocaml_flac_decoder_read_pcm fresh_decoder run_with_frame).1
      = .value [1, 0, 112, 17, 254, 255, 255, 127] ∧
    (ocaml_flac_decoder_read_pcm
        (ocaml_flac_decoder_read_pcm fresh_decoder run_with_frame).2 run_without_frame).1
      = .value [5, 0, 7, 0, 6, 0, 8, 0] ∧
    (ocaml_flac_decoder_read_pcm
        (ocaml_flac_decoder_read_pcm fresh_decoder run_with_frame).2
        run_without_frame).2.callbacks
      = (ocaml_flac_decoder_read_pcm fresh_decoder run_with_frame).2.callbacks := by
  refine ⟨?_, ?_, rfl, ?_, ?_, rfl⟩ <;> decide

end OcamlFlac

namespace OcamlFlac

/-! ## Loops -/

theorem for_loop_zero {σ : Type} (body : Nat → σ → Option σ) (init : σ) :
    for_loop 0 body init = some init := rfl

end OcamlFlac

namespace OcamlFlac

/-! ## PCM conversion -/

end OcamlFlac

namespace OcamlFlac

/-! ## Float conversion -/

end OcamlFlac

namespace OcamlFlac

/-! ## General facts behind the concrete evaluations -/

/-- Word `c` of the block filled by `cpy_out_buf` is the engine's own pointer for
channel `c`, so the cached sample `[c][i]` is whatever the engine's buffer holds at
the time of the read. -/
theorem cpy_out_buf_shares_pointers (callbacks : ocaml_flac_decoder_callbacks)
    (buffer : Nat → Ptr) (frame : FLAC__Frame) (memory : Mem) (c i : Nat)
    (hc : c < sizeof_int32 * frame.header.blocksize * frame.header.channels *
      frame.header.bits_per_sample / 8 / sizeof_ptr) :
    out_buf_at (cpy_out_buf callbacks buffer frame) memory c i = (memory (buffer c))[i]? := by
  simp only [out_buf_at, cpy_out_buf, List.getElem?_map, List.getElem?_range hc,
    Option.map_some']

/-- Whatever the closure returns, `read_callback` reports `CONTINUE` and hands back
the byte count it was given. -/
theorem read_callback_status_bytes (callbacks : ocaml_flac_decoder_callbacks)
    (buffer : List Nat) (N : Nat) (r : ReadResult)
    (h : read_callback callbacks buffer N = some r) :
    r.status = FLAC__StreamDecoderReadStatus.CONTINUE ∧ r.bytes = N := by
  unfold read_callback at h
  cases hm : memcpy buffer (callbacks.read_f N).1 (size_t_of_int (callbacks.read_f N).2) with
  | none => simp [hm] at h
  | some b =>
    simp only [hm, Option.some.injEq] at h
    subst h
    exact ⟨rfl, rfl⟩

/-- No environment makes `ocaml_flac_decoder_create` raise. -/
theorem create_never_raises (read_func : Nat → List Nat × Int) (env : CreateEnv) (e : Exn) :
    (ocaml_flac_decoder_create read_func env).1 ≠ .raised e := by
  unfold ocaml_flac_decoder_create
  cases env.malloc_dec with
  | none => simp
  | some garbage =>
    cases env.new_decoder with
    | none => simp
    | some d => simp

theorem out_buf_at_congr (a b : ocaml_flac_decoder_callbacks) (memory : Mem)
    (h : a.out_buf = b.out_buf) : out_buf_at a memory = out_buf_at b memory := by
  funext c i
  simp only [out_buf_at, h]

/-- A decode step without a write callback leaves the cached frame as it was, and
both conversions then depend on the step only through the engine's sample memory. -/
theorem read_without_write (dec : ocaml_flac_decoder) (run : EngineRun)
    (h : ¬ has_write run.calls) :
    (process_single dec run).callbacks.out_buf = dec.callbacks.out_buf ∧
    (process_single dec run).callbacks.out_frame = dec.callbacks.out_frame ∧
    read_convert (process_single dec run).callbacks run.memory
      = read_convert dec.callbacks run.memory ∧
    read_pcm_convert (process_single dec run).callbacks run.memory
      = read_pcm_convert dec.callbacks run.memory := by
  obtain ⟨h1, h2⟩ := run_calls_frame_of_no_write run.calls dec.callbacks h
  have h3 := out_buf_at_congr (process_single dec run).callbacks dec.callbacks run.memory h1
  have h4 : (process_single dec run).callbacks.out_frame = dec.callbacks.out_frame := h2
  refine ⟨h1, h2, ?_, ?_⟩
  · simp only [read_convert, read_fill, h3, h4]
  · simp only [read_pcm_convert, read_pcm_fill, h3, h4]

end OcamlFlac
